import Mathlib

/-!
Shallow embedding of the HTLC (hashed-timelock contract) from
`src/contracts/cosmos/src/htlc.rs`.

The contract owns a single swap record stored in one storage slot
(`SWAP : Item<SwapContract>`), modelled here as `Store := Option SwapContract`.
Machine integers (`u64` timestamps, `Uint128` amounts, bytes) are modelled as
`Nat`; all 32-bit arithmetic inside SHA-256 is performed with an explicit
`% 2 ^ 32`.  Host collaborators are modelled at their interface:
`deps.api.addr_validate` becomes a boolean predicate `validAddr` (CosmWasm's
`addr_validate` returns the input string unchanged when it is valid), and the
serde decoding `from_slice(&wrapper.msg)` in `execute_receive` becomes an
`Option Cw20HookMsg` field (`none` models bytes that fail to decode).
Fallible operations return `Except StdErr`, paired with the post-call store.
-/

namespace Htlc

/-! ## SHA-256 (the source hashes the claim preimage with `sha2::Sha256`) -/

namespace Sha256

/-- 2^32, the modulus of all word arithmetic in SHA-256. -/
def w32 : Nat := 4294967296

/-- Right-rotation of a 32-bit word by `n` places. -/
def rotr (n x : Nat) : Nat := (x % w32 / 2 ^ n + x % w32 % 2 ^ n * 2 ^ (32 - n)) % w32

/-- Logical right shift of a 32-bit word by `n` places. -/
def shr (n x : Nat) : Nat := x % w32 / 2 ^ n

/-- Bitwise complement within 32 bits. -/
def compl32 (x : Nat) : Nat := x % w32 ^^^ (w32 - 1)

/-- The `Ch` function of the SHA-256 compression round. -/
def ch (e f g : Nat) : Nat := (e &&& f) ^^^ (compl32 e &&& g)

/-- The `Maj` function of the SHA-256 compression round. -/
def maj (a b c : Nat) : Nat := (a &&& b) ^^^ (a &&& c) ^^^ (b &&& c)

/-- Message-schedule sigma-0. -/
def ssig0 (x : Nat) : Nat := rotr 7 x ^^^ rotr 18 x ^^^ shr 3 x

/-- Message-schedule sigma-1. -/
def ssig1 (x : Nat) : Nat := rotr 17 x ^^^ rotr 19 x ^^^ shr 10 x

/-- Compression Sigma-0. -/
def bsig0 (x : Nat) : Nat := rotr 2 x ^^^ rotr 13 x ^^^ rotr 22 x

/-- Compression Sigma-1. -/
def bsig1 (x : Nat) : Nat := rotr 6 x ^^^ rotr 11 x ^^^ rotr 25 x

/-- The 64 SHA-256 round constants. -/
def kconst : List Nat :=
  [1116352408, 1899447441, 3049323471, 3921009573, 961987163, 1508970993,
   2453635748, 2870763221, 3624381080, 310598401, 607225278, 1426881987,
   1925078388, 2162078206, 2614888103, 3248222580, 3835390401, 4022224774,
   264347078, 604807628, 770255983, 1249150122, 1555081692, 1996064986,
   2554220882, 2821834349, 2952996808, 3210313671, 3336571891, 3584528711,
   113926993, 338241895, 666307205, 773529912, 1294757372, 1396182291,
   1695183700, 1986661051, 2177026350, 2456956037, 2730485921, 2820302411,
   3259730800, 3345764771, 3516065817, 3600352804, 4094571909, 275423344,
   430227734, 506948616, 659060556, 883997877, 958139571, 1322822218,
   1537002063, 1747873779, 1955562222, 2024104815, 2227730452, 2361852424,
   2428436474, 2756734187, 3204031479, 3329325298]

/-- The SHA-256 initial hash value. -/
def initH : List Nat :=
  [1779033703, 3144134277, 1013904242, 2773480762, 1359893119,
   2600822924, 528734635, 1541459225]

/-- The `w` low-order bytes of `n`, big-endian. -/
def beBytes : Nat → Nat → List Nat
  | 0, _ => []
  | w + 1, n => beBytes w (n / 256) ++ [n % 256]

/-- SHA-256 padding: append `0x80`, zeros to 56 mod 64, then the 64-bit
big-endian bit length. -/
def pad (msg : List Nat) : List Nat :=
  let L := msg.length
  msg ++ [0x80] ++ List.replicate ((64 - (L + 9) % 64) % 64) 0 ++ beBytes 8 (L * 8 % 2 ^ 64)

/-- Big-endian 32-bit words from a byte list (bytes taken mod 256). -/
def toWords : List Nat → List Nat
  | b0 :: b1 :: b2 :: b3 :: rest =>
      (((b0 % 256 * 256 + b1 % 256) * 256 + b2 % 256) * 256 + b3 % 256) :: toWords rest
  | _ => []

/-- One step of message-schedule extension: append word `t` from words
`t-16`, `t-15`, `t-7`, `t-2`. -/
def extendStep (ws : List Nat) : List Nat :=
  let t := ws.length
  ws ++ [(ws.getD (t - 16) 0 + ssig0 (ws.getD (t - 15) 0) + ws.getD (t - 7) 0
          + ssig1 (ws.getD (t - 2) 0)) % w32]

/-- One SHA-256 compression round on the eight working variables, given
`kw = (k[t] + w[t]) % 2 ^ 32`. -/
def round (st : List Nat) (kw : Nat) : List Nat :=
  match st with
  | [a, b, c, d, e, f, g, h] =>
    let t1 := (h + bsig1 e + ch e f g + kw) % w32
    let t2 := (bsig0 a + maj a b c) % w32
    [(t1 + t2) % w32, a, b, c, (d + t1) % w32, e, f, g]
  | other => other

/-- Process one 64-byte block against the running hash value. -/
def processBlock (h : List Nat) (block : List Nat) : List Nat :=
  let ws := Nat.repeat extendStep 48 (toWords block)
  let st := (kconst.zip ws).map (fun p => (p.1 + p.2) % w32) |>.foldl round h
  (h.zip st).map (fun p => (p.1 + p.2) % w32)

/-- Fold `processBlock` over the padded message, 64 bytes at a time. -/
def processChunks (acc : List Nat) (bs : List Nat) : List Nat :=
  if _h : 64 ≤ bs.length then processChunks (processBlock acc (bs.take 64)) (bs.drop 64) else acc
termination_by bs.length
decreasing_by simp [List.length_drop]; omega

/-- SHA-256 of a byte list, as its 32 digest bytes. -/
def digest (msg : List Nat) : List Nat :=
  ((processChunks initH (pad msg)).map (beBytes 4)).flatten

end Sha256

/-! ## Data model (`htlc.rs` lines 14-83) -/

/-- Host addresses; CosmWasm `Addr` is a validated string. -/
abbrev Addr := String

/-- `cosmwasm_std::Binary`: a byte blob. -/
abbrev Binary := List Nat

/-- `SwapState` (htlc.rs 41-47). -/
inductive SwapState where
  | Open
  | Claimed
  | Refunded
deriving DecidableEq, Repr

/-- `SwapContract` (htlc.rs 49-58): the single stored swap record. -/
structure SwapContract where
  sender : Addr
  beneficiary : Addr
  hash_lock : Binary
  timelock : Nat
  amount : Nat
  token : Option Addr
  state : SwapState
deriving DecidableEq, Repr

/-- `cosmwasm_std::Coin`. -/
structure Coin where
  denom : String
  amount : Nat
deriving DecidableEq, Repr

/-- `cosmwasm_std::MessageInfo`: the caller and the funds attached to the call. -/
structure MessageInfo where
  sender : Addr
  funds : List Coin
deriving DecidableEq, Repr

/-- `cosmwasm_std::Env`, reduced to the one field the contract reads:
`env.block.time.seconds()`. -/
structure Env where
  time : Nat
deriving DecidableEq, Repr

/-- `InstantiateMsg` (htlc.rs 14-22). -/
structure InstantiateMsg where
  sender : String
  beneficiary : String
  hash_lock : Binary
  timelock : Nat
  amount : Nat
  token : Option String
deriving DecidableEq, Repr

/-- `Cw20HookMsg` (htlc.rs 71-79). -/
inductive Cw20HookMsg where
  | Fund (beneficiary : String) (hash_lock : Binary) (timelock : Nat)
deriving DecidableEq, Repr

/-- `cw20::Cw20ReceiveMsg`.  The raw `msg : Binary` payload is modelled after
decoding: `some hook` when `from_slice` succeeds, `none` when it fails. -/
structure Cw20ReceiveMsg where
  sender : String
  amount : Nat
  msg : Option Cw20HookMsg
deriving DecidableEq, Repr

/-- `ExecuteMsg` (htlc.rs 24-31). -/
inductive ExecuteMsg where
  | Fund
  | Claim (preimage : Binary)
  | Refund
  | Receive (wrapper : Cw20ReceiveMsg)
deriving DecidableEq, Repr

/-- `cosmwasm_std::StdError`, restricted to the variants this contract can
produce: `generic_err` with its message string, the address-validation
failure, the serde failure of `from_slice`, and `load` on empty storage. -/
inductive StdErr where
  | genericErr (msg : String)
  | invalidAddress (addr : String)
  | parseErr
  | notFound
deriving DecidableEq, Repr

/-- The outbound `CosmosMsg` shapes the contract builds: a native bank send,
or a CW20 `Transfer {recipient, amount}` call on the token contract
(the `to_binary`-serialized payload is modelled structurally). -/
inductive CosmosMsg where
  | bankSend (to_address : Addr) (amount : List Coin)
  | wasmExecuteTransfer (contract_addr : Addr) (recipient : Addr) (amount : Nat)
deriving DecidableEq, Repr

/-- The single storage slot `SWAP : Item<SwapContract>` (htlc.rs 83). -/
abbrev Store := Option SwapContract

/-- A call result: the post-call store, paired with either the response's
message list (the outbound transfer directives) or the error. -/
abbrev CallResult := Store × Except StdErr (List CosmosMsg)

/-! ## Operations (`htlc.rs` lines 85-331) -/

/-- `instantiate` (htlc.rs 85-132).  `validAddr` models
`deps.api.addr_validate`, which returns its input unchanged when valid.
The `set_contract_version` call writes cw2 metadata to a separate storage
key and never fails; it is outside the swap record modelled here. -/
def instantiate (validAddr : String → Bool) (store : Store) (env : Env)
    (msg : InstantiateMsg) : CallResult :=
  if !validAddr msg.sender then (store, .error (.invalidAddress msg.sender))
  else if !validAddr msg.beneficiary then (store, .error (.invalidAddress msg.beneficiary))
  else if msg.hash_lock.isEmpty then (store, .error (.genericErr "Hash lock cannot be empty"))
  else if msg.timelock ≤ env.time then
    (store, .error (.genericErr "Timelock must be in the future"))
  else if msg.amount = 0 then (store, .error (.genericErr "Amount must be greater than zero"))
  else
    match msg.token with
    | some addr =>
      if !validAddr addr then (store, .error (.invalidAddress addr))
      else
        (some ⟨msg.sender, msg.beneficiary, msg.hash_lock, msg.timelock, msg.amount,
               some addr, SwapState.Open⟩, .ok [])
    | none =>
      (some ⟨msg.sender, msg.beneficiary, msg.hash_lock, msg.timelock, msg.amount,
             none, SwapState.Open⟩, .ok [])

/-- `execute_fund` (htlc.rs 149-177). -/
def executeFund (store : Store) (_env : Env) (info : MessageInfo) : CallResult :=
  match store with
  | none => (store, .error .notFound)
  | some swap =>
    if swap.state ≠ SwapState.Open then (store, .error (.genericErr "Swap is not open"))
    else if info.sender ≠ swap.sender then
      (store, .error (.genericErr "Only sender can fund the swap"))
    else if swap.token.isNone then
      match info.funds.find? (fun coin => coin.denom == "uatom" || coin.denom == "stake") with
      | some coin =>
        if coin.amount ≠ swap.amount then
          (store, .error (.genericErr "Incorrect payment amount"))
        else (store, .ok [])
      | none => (store, .error (.genericErr "No payment found"))
    else (store, .ok [])

/-- `execute_claim` (htlc.rs 179-245). -/
def executeClaim (store : Store) (env : Env) (info : MessageInfo) (preimage : Binary) :
    CallResult :=
  match store with
  | none => (store, .error .notFound)
  | some swap =>
    if swap.state ≠ SwapState.Open then (store, .error (.genericErr "Swap is not open"))
    else if info.sender ≠ swap.beneficiary then
      (store, .error (.genericErr "Only beneficiary can claim"))
    else if swap.timelock ≤ env.time then (store, .error (.genericErr "Timelock has expired"))
    else if Sha256.digest preimage ≠ swap.hash_lock then
      (store, .error (.genericErr "Invalid preimage"))
    else
      let swap1 := { swap with state := SwapState.Claimed }
      let messages : List CosmosMsg :=
        match swap1.token with
        | none => [.bankSend swap1.beneficiary [⟨"uatom", swap1.amount⟩]]
        | some token_addr => [.wasmExecuteTransfer token_addr swap1.beneficiary swap1.amount]
      (some swap1, .ok messages)

/-- `execute_refund` (htlc.rs 247-297). -/
def executeRefund (store : Store) (env : Env) (info : MessageInfo) : CallResult :=
  match store with
  | none => (store, .error .notFound)
  | some swap =>
    if swap.state ≠ SwapState.Open then (store, .error (.genericErr "Swap is not open"))
    else if info.sender ≠ swap.sender then (store, .error (.genericErr "Only sender can refund"))
    else if env.time < swap.timelock then
      (store, .error (.genericErr "Timelock has not expired"))
    else
      let swap1 := { swap with state := SwapState.Refunded }
      let messages : List CosmosMsg :=
        match swap1.token with
        | none => [.bankSend swap1.sender [⟨"uatom", swap1.amount⟩]]
        | some token_addr => [.wasmExecuteTransfer token_addr swap1.sender swap1.amount]
      (some swap1, .ok messages)

/-- `execute_receive` (htlc.rs 299-331). -/
def executeReceive (validAddr : String → Bool) (store : Store) (_env : Env)
    (info : MessageInfo) (wrapper : Cw20ReceiveMsg) : CallResult :=
  match wrapper.msg with
  | none => (store, .error .parseErr)
  | some hook =>
    if !validAddr wrapper.sender then (store, .error (.invalidAddress wrapper.sender))
    else
      match hook with
      | .Fund _ _ _ =>
        match store with
        | none => (store, .error .notFound)
        | some swap =>
          if swap.token ≠ some info.sender then
            (store, .error (.genericErr "Wrong token contract"))
          else if wrapper.amount ≠ swap.amount then
            (store, .error (.genericErr "Incorrect token amount"))
          else (store, .ok [])

/-- `execute` (htlc.rs 134-147): dispatch on the message variant. -/
def execute (validAddr : String → Bool) (store : Store) (env : Env) (info : MessageInfo) :
    ExecuteMsg → CallResult
  | .Fund => executeFund store env info
  | .Claim preimage => executeClaim store env info preimage
  | .Refund => executeRefund store env info
  | .Receive wrapper => executeReceive validAddr store env info wrapper

/-! ## Queries (`htlc.rs` lines 342-363) -/

/-- `query_is_claimable` (htlc.rs 355-358). -/
def queryIsClaimable (store : Store) (env : Env) : Except StdErr Bool :=
  match store with
  | none => .error .notFound
  | some swap => .ok (swap.state == SwapState.Open && env.time < swap.timelock)

/-- `query_is_refundable` (htlc.rs 360-363). -/
def queryIsRefundable (store : Store) (env : Env) : Except StdErr Bool :=
  match store with
  | none => .error .notFound
  | some swap => .ok (swap.state == SwapState.Open && swap.timelock ≤ env.time)

/-! ## Execution traces

A contract lifetime is the instantiation followed by a sequence of `execute`
calls, each with its own block time, caller and message.  `traceTransfers`
counts the outbound transfer directives emitted over a trace, `traceSettles`
the successful Claim-or-Refund calls. -/

/-- One external `execute` call: its block environment, caller info, and
message. -/
structure Call where
  env : Env
  info : MessageInfo
  msg : ExecuteMsg

/-- Run one call against the store. -/
def stepCall (v : String → Bool) (s : Store) (c : Call) : CallResult :=
  execute v s c.env c.info c.msg

/-- `true` exactly on successful results. -/
def okB : Except StdErr (List CosmosMsg) → Bool
  | .ok _ => true
  | .error _ => false

/-- Number of outbound messages carried by a result (errors carry none). -/
def msgCount : Except StdErr (List CosmosMsg) → Nat
  | .ok msgs => msgs.length
  | .error _ => 0

/-- The messages that settle a swap: Claim and Refund. -/
def isSettle : ExecuteMsg → Bool
  | .Claim _ => true
  | .Refund => true
  | _ => false

/-- Total outbound transfer directives emitted over a trace of calls. -/
def traceTransfers (v : String → Bool) : Store → List Call → Nat
  | _, [] => 0
  | s, c :: rest => msgCount (stepCall v s c).2 + traceTransfers v (stepCall v s c).1 rest

/-- Number of successful Claim-or-Refund calls over a trace. -/
def traceSettles (v : String → Bool) : Store → List Call → Nat
  | _, [] => 0
  | s, c :: rest =>
      (if okB (stepCall v s c).2 && isSettle c.msg then 1 else 0)
        + traceSettles v (stepCall v s c).1 rest

/-- Whether the store holds a record in state `Open`. -/
def storeOpen : Store → Bool
  | some swap => swap.state == SwapState.Open
  | none => false

/-- The single outbound transfer directive the contract builds on the
transition that leaves `Open`: a native bank send of `amount` "uatom" when the
asset is native, a CW20 `Transfer {recipient, amount}` call on the token
contract otherwise (htlc.rs 211-237 and 267-290). -/
def transferMsg (recipient : Addr) (swap : SwapContract) : CosmosMsg :=
  match swap.token with
  | none => .bankSend recipient [⟨"uatom", swap.amount⟩]
  | some token_addr => .wasmExecuteTransfer token_addr recipient swap.amount

end Htlc

namespace Htlc

/-! ## Basic per-operation lemmas -/

/-- `execute_fund` never writes the store. -/
theorem executeFund_fst (store : Store) (env : Env) (info : MessageInfo) :
    (executeFund store env info).1 = store := by
  unfold executeFund
  rcases store with _ | swap
  · rfl
  · dsimp only
    repeat' split
    all_goals rfl

/-- `execute_receive` never writes the store. -/
theorem executeReceive_fst (v : String → Bool) (store : Store) (env : Env)
    (info : MessageInfo) (w : Cw20ReceiveMsg) :
    (executeReceive v store env info w).1 = store := by
  unfold executeReceive
  repeat' split
  all_goals rfl

/-- `execute_receive` never emits an outbound message. -/
theorem executeReceive_msgCount (v : String → Bool) (store : Store) (env : Env)
    (info : MessageInfo) (w : Cw20ReceiveMsg) :
    msgCount (executeReceive v store env info w).2 = 0 := by
  unfold executeReceive
  repeat' split
  all_goals rfl

/-- `execute_fund` never emits an outbound message. -/
theorem executeFund_msgCount (store : Store) (env : Env) (info : MessageInfo) :
    msgCount (executeFund store env info).2 = 0 := by
  unfold executeFund
  rcases store with _ | swap
  · rfl
  · dsimp only
    repeat' split
    all_goals rfl

instance instDecEqExceptMsgs : DecidableEq (Except StdErr (List CosmosMsg)) := by
  intro a b
  rcases a with ea | oa <;> rcases b with eb | ob
  · exact decidable_of_iff (ea = eb) (by simp)
  · exact isFalse (by simp)
  · exact isFalse (by simp)
  · exact decidable_of_iff (oa = ob) (by simp)

/-! ## Fund: native-path characterization (C7) and token path (C10) -/

/-- The accepted-denomination predicate of `execute_fund` (htlc.rs 162). -/
def acceptedDenom (c : Coin) : Bool := c.denom == "uatom" || c.denom == "stake"

/-- Fund on a non-`Open` swap fails with the state error. -/
theorem executeFund_not_open (swap : SwapContract) (env : Env) (info : MessageInfo)
    (h1 : swap.state ≠ SwapState.Open) :
    executeFund (some swap) env info = (some swap, .error (.genericErr "Swap is not open")) := by
  simp [executeFund, h1]

/-- Fund by a non-initiator fails with the authorization error. -/
theorem executeFund_not_sender (swap : SwapContract) (env : Env) (info : MessageInfo)
    (h1 : swap.state = SwapState.Open) (h2 : info.sender ≠ swap.sender) :
    executeFund (some swap) env info =
      (some swap, .error (.genericErr "Only sender can fund the swap")) := by
  simp [executeFund, h1, h2]

/-- Native fund with no accepted-denomination coin fails with the payment
error. -/
theorem executeFund_no_payment (swap : SwapContract) (env : Env) (info : MessageInfo)
    (htok : swap.token = none) (h1 : swap.state = SwapState.Open)
    (h2 : info.sender = swap.sender) (hf : info.funds.find? acceptedDenom = none) :
    executeFund (some swap) env info = (some swap, .error (.genericErr "No payment found")) := by
  unfold acceptedDenom at hf
  simp [executeFund, h1, h2, htok, hf]

/-- Native fund whose first accepted-denomination coin mismatches the amount
fails with the payment error. -/
theorem executeFund_wrong_amount (swap : SwapContract) (env : Env) (info : MessageInfo)
    (coin : Coin) (htok : swap.token = none) (h1 : swap.state = SwapState.Open)
    (h2 : info.sender = swap.sender) (hf : info.funds.find? acceptedDenom = some coin)
    (h4 : coin.amount ≠ swap.amount) :
    executeFund (some swap) env info =
      (some swap, .error (.genericErr "Incorrect payment amount")) := by
  unfold acceptedDenom at hf
  simp [executeFund, h1, h2, htok, hf, h4]

/-- Native fund whose first accepted-denomination coin matches the amount
succeeds. -/
theorem executeFund_native_ok (swap : SwapContract) (env : Env) (info : MessageInfo)
    (coin : Coin) (htok : swap.token = none) (h1 : swap.state = SwapState.Open)
    (h2 : info.sender = swap.sender) (hf : info.funds.find? acceptedDenom = some coin)
    (h4 : coin.amount = swap.amount) :
    executeFund (some swap) env info = (some swap, .ok []) := by
  unfold acceptedDenom at hf
  simp [executeFund, h1, h2, htok, hf, h4]

/-- Token fund by the initiator on an open swap succeeds with no payment
inspection. -/
theorem executeFund_token_ok (swap : SwapContract) (env : Env) (info : MessageInfo)
    (t : Addr) (htok : swap.token = some t) (h1 : swap.state = SwapState.Open)
    (h2 : info.sender = swap.sender) :
    executeFund (some swap) env info = (some swap, .ok []) := by
  simp [executeFund, h1, h2, htok]

/-- C7 (amended): on a native-asset swap, Fund succeeds iff the state is
`Open`, the caller is the initiator, and the FIRST coin of the attached funds
in an accepted native denomination ("uatom" or "stake") exists and has amount
equal to the swap’s amount; the error is the state / authorization / payment
error of the first failing guard, and in every case the stored record is
unchanged. -/
theorem fund_native_first_coin (swap : SwapContract) (env : Env) (info : MessageInfo)
    (htok : swap.token = none) :
    (executeFund (some swap) env info).1 = some swap
  ∧ (okB (executeFund (some swap) env info).2 = true ↔
      (swap.state = SwapState.Open ∧ info.sender = swap.sender ∧
        ∃ coin, info.funds.find? acceptedDenom = some coin ∧ coin.amount = swap.amount))
  ∧ (swap.state ≠ SwapState.Open →
      (executeFund (some swap) env info).2 = .error (.genericErr "Swap is not open"))
  ∧ (swap.state = SwapState.Open → info.sender ≠ swap.sender →
      (executeFund (some swap) env info).2 = .error (.genericErr "Only sender can fund the swap"))
  ∧ (swap.state = SwapState.Open → info.sender = swap.sender →
      info.funds.find? acceptedDenom = none →
      (executeFund (some swap) env info).2 = .error (.genericErr "No payment found"))
  ∧ (∀ coin, swap.state = SwapState.Open → info.sender = swap.sender →
      info.funds.find? acceptedDenom = some coin → coin.amount ≠ swap.amount →
      (executeFund (some swap) env info).2 = .error (.genericErr "Incorrect payment amount")) := by
  refine ⟨executeFund_fst _ _ _, ⟨?_, ?_⟩, ?_, ?_, ?_, ?_⟩
  · intro hok
    by_cases h1 : swap.state = SwapState.Open
    · by_cases h2 : info.sender = swap.sender
      · rcases hf : info.funds.find? acceptedDenom with _ | coin
        · rw [executeFund_no_payment swap env info htok h1 h2 hf] at hok
          simp [okB] at hok
        · by_cases h4 : coin.amount = swap.amount
          · exact ⟨h1, h2, coin, rfl, h4⟩
          · rw [executeFund_wrong_amount swap env info coin htok h1 h2 hf h4] at hok
            simp [okB] at hok
      · rw [executeFund_not_sender swap env info h1 h2] at hok
        simp [okB] at hok
    · rw [executeFund_not_open swap env info h1] at hok
      simp [okB] at hok
  · rintro ⟨h1, h2, coin, hf, h4⟩
    rw [executeFund_native_ok swap env info coin htok h1 h2 hf h4]
    rfl
  · intro h1
    rw [executeFund_not_open swap env info h1]
  · intro h1 h2
    rw [executeFund_not_sender swap env info h1 h2]
  · intro h1 h2 hf
    rw [executeFund_no_payment swap env info htok h1 h2 hf]
  · intro coin h1 h2 hf h4
    rw [executeFund_wrong_amount swap env info coin htok h1 h2 hf h4]

/-- Witness for C7 (amended) at a concrete native swap: a correct first
accepted coin makes Fund succeed. -/
theorem fund_native_first_coin_witness :
    okB (executeFund
      (some { sender := "alice", beneficiary := "bob", hash_lock := [7], timelock := 100,
              amount := 1000, token := none, state := SwapState.Open }) { time := 0 }
      { sender := "alice", funds := [{ denom := "stake", amount := 1000 }] }).2 = true :=
  ((fund_native_first_coin _ { time := 0 }
      { sender := "alice", funds := [{ denom := "stake", amount := 1000 }] } rfl).2.1).mpr
    ⟨rfl, rfl, { denom := "stake", amount := 1000 }, by decide, rfl⟩

/-- C7 counterexample: the attached funds DO contain an accepted-denomination
coin matching the swap amount (the "stake" coin), yet Fund fails, because the
code inspects only the first accepted-denomination coin (the "uatom" one). -/
theorem fund_contains_matching_coin_cex :
    (∃ c ∈ ([{ denom := "uatom", amount := 5 }, { denom := "stake", amount := 1000 }] :
        List Coin), (c.denom = "uatom" ∨ c.denom = "stake") ∧ c.amount = 1000)
  ∧ executeFund
      (some { sender := "alice", beneficiary := "bob", hash_lock := [7], timelock := 100,
              amount := 1000, token := none, state := SwapState.Open }) { time := 0 }
      { sender := "alice",
        funds := [{ denom := "uatom", amount := 5 }, { denom := "stake", amount := 1000 }] } =
    (some { sender := "alice", beneficiary := "bob", hash_lock := [7], timelock := 100,
            amount := 1000, token := none, state := SwapState.Open },
     .error (.genericErr "Incorrect payment amount")) := by
  constructor
  · refine ⟨{ denom := "stake", amount := 1000 }, ?_, ?_⟩
    · simp
    · exact ⟨Or.inr rfl, rfl⟩
  · rfl

/-- C10: on a token-asset swap, Fund performs no payment verification: the
result does not depend on the attached funds at all, and it succeeds iff the
state is `Open` and the caller is the initiator. -/
theorem fund_token_ignores_funds (swap : SwapContract) (env : Env) (sender : Addr)
    (funds funds₀ : List Coin) (t : Addr) (htok : swap.token = some t) :
    executeFund (some swap) env { sender := sender, funds := funds } =
      executeFund (some swap) env { sender := sender, funds := funds₀ }
  ∧ (okB (executeFund (some swap) env { sender := sender, funds := funds }).2 = true ↔
      (swap.state = SwapState.Open ∧ sender = swap.sender)) := by
  by_cases h1 : swap.state = SwapState.Open
  · by_cases h2 : sender = swap.sender
    · rw [executeFund_token_ok swap env ⟨sender, funds⟩ t htok h1 h2,
         executeFund_token_ok swap env ⟨sender, funds₀⟩ t htok h1 h2]
      exact ⟨rfl, iff_of_true rfl ⟨h1, h2⟩⟩
    · rw [executeFund_not_sender swap env ⟨sender, funds⟩ h1 h2,
         executeFund_not_sender swap env ⟨sender, funds₀⟩ h1 h2]
      refine ⟨rfl, iff_of_false ?_ ?_⟩
      · simp [okB]
      · rintro ⟨-, hs⟩; exact h2 hs
  · rw [executeFund_not_open swap env ⟨sender, funds⟩ h1,
       executeFund_not_open swap env ⟨sender, funds₀⟩ h1]
    refine ⟨rfl, iff_of_false ?_ ?_⟩
    · simp [okB]
    · rintro ⟨hs, -⟩; exact h1 hs

/-- Witness for C10 at a concrete token swap: success with empty funds. -/
theorem fund_token_ignores_funds_witness :
    okB (executeFund
      (some { sender := "alice", beneficiary := "bob", hash_lock := [7], timelock := 100,
              amount := 1000, token := some "tok", state := SwapState.Open }) { time := 0 }
      { sender := "alice", funds := [] }).2 = true :=
  ((fund_token_ignores_funds _ { time := 0 } "alice" [] [{ denom := "uatom", amount := 5 }]
      "tok" rfl).2).mpr ⟨rfl, rfl⟩

/-! ## Claim: characterization (C2) and hash guard lemmas -/

/-- Claim on a non-`Open` swap fails with the state error. -/
theorem executeClaim_not_open (swap : SwapContract) (env : Env) (info : MessageInfo)
    (p : Binary) (h1 : swap.state ≠ SwapState.Open) :
    executeClaim (some swap) env info p =
      (some swap, .error (.genericErr "Swap is not open")) := by
  simp [executeClaim, h1]

/-- Claim by a non-beneficiary fails with the authorization error. -/
theorem executeClaim_not_beneficiary (swap : SwapContract) (env : Env) (info : MessageInfo)
    (p : Binary) (h1 : swap.state = SwapState.Open) (h2 : info.sender ≠ swap.beneficiary) :
    executeClaim (some swap) env info p =
      (some swap, .error (.genericErr "Only beneficiary can claim")) := by
  simp [executeClaim, h1, h2]

/-- Claim at or after the deadline fails with the timing error. -/
theorem executeClaim_expired (swap : SwapContract) (env : Env) (info : MessageInfo)
    (p : Binary) (h1 : swap.state = SwapState.Open) (h2 : info.sender = swap.beneficiary)
    (h3 : swap.timelock ≤ env.time) :
    executeClaim (some swap) env info p =
      (some swap, .error (.genericErr "Timelock has expired")) := by
  simp [executeClaim, h1, h2, h3]

/-- Claim with a preimage whose digest differs from the hash lock fails with
the cryptographic error. -/
theorem executeClaim_bad_preimage (swap : SwapContract) (env : Env) (info : MessageInfo)
    (p : Binary) (h1 : swap.state = SwapState.Open) (h2 : info.sender = swap.beneficiary)
    (h3 : env.time < swap.timelock) (h4 : Sha256.digest p ≠ swap.hash_lock) :
    executeClaim (some swap) env info p =
      (some swap, .error (.genericErr "Invalid preimage")) := by
  simp [executeClaim, h1, h2, Nat.not_le.mpr h3, h4]

/-- Claim with all four guards satisfied succeeds: the state becomes
`Claimed` and exactly the one transfer directive to the beneficiary is
emitted. -/
theorem executeClaim_ok (swap : SwapContract) (env : Env) (info : MessageInfo)
    (p : Binary) (h1 : swap.state = SwapState.Open) (h2 : info.sender = swap.beneficiary)
    (h3 : env.time < swap.timelock) (h4 : Sha256.digest p = swap.hash_lock) :
    executeClaim (some swap) env info p =
      (some { swap with state := SwapState.Claimed },
       .ok [transferMsg swap.beneficiary swap]) := by
  simp only [executeClaim, transferMsg, h1, h2, Nat.not_le.mpr h3, h4]
  cases swap.token <;> simp [h1, h2, Nat.not_le.mpr h3, h4]

/-- C2: Claim succeeds iff `state = Open`, caller = beneficiary,
`now < deadline` and the SHA-256 digest of the preimage equals the hash
lock; on success the state becomes `Claimed`, the record is persisted and
exactly one transfer directive to the beneficiary for `amount` of the
configured asset is emitted (native bank send vs. token-contract transfer
call by asset kind); each single-guard failure leaves the store unchanged
and returns its specific error. -/
theorem claim_characterization (swap : SwapContract) (env : Env) (info : MessageInfo)
    (p : Binary) :
    (okB (executeClaim (some swap) env info p).2 = true ↔
      (swap.state = SwapState.Open ∧ info.sender = swap.beneficiary
        ∧ env.time < swap.timelock ∧ Sha256.digest p = swap.hash_lock))
  ∧ (swap.state = SwapState.Open → info.sender = swap.beneficiary →
      env.time < swap.timelock → Sha256.digest p = swap.hash_lock →
      executeClaim (some swap) env info p =
        (some { swap with state := SwapState.Claimed },
         .ok [transferMsg swap.beneficiary swap]))
  ∧ (swap.state ≠ SwapState.Open →
      executeClaim (some swap) env info p =
        (some swap, .error (.genericErr "Swap is not open")))
  ∧ (swap.state = SwapState.Open → info.sender ≠ swap.beneficiary →
      executeClaim (some swap) env info p =
        (some swap, .error (.genericErr "Only beneficiary can claim")))
  ∧ (swap.state = SwapState.Open → info.sender = swap.beneficiary →
      swap.timelock ≤ env.time →
      executeClaim (some swap) env info p =
        (some swap, .error (.genericErr "Timelock has expired")))
  ∧ (swap.state = SwapState.Open → info.sender = swap.beneficiary →
      env.time < swap.timelock → Sha256.digest p ≠ swap.hash_lock →
      executeClaim (some swap) env info p =
        (some swap, .error (.genericErr "Invalid preimage"))) := by
  refine ⟨⟨?_, ?_⟩, executeClaim_ok swap env info p, executeClaim_not_open swap env info p,
    executeClaim_not_beneficiary swap env info p, executeClaim_expired swap env info p,
    executeClaim_bad_preimage swap env info p⟩
  · intro hok
    by_cases h1 : swap.state = SwapState.Open
    · by_cases h2 : info.sender = swap.beneficiary
      · by_cases h3 : env.time < swap.timelock
        · by_cases h4 : Sha256.digest p = swap.hash_lock
          · exact ⟨h1, h2, h3, h4⟩
          · rw [executeClaim_bad_preimage swap env info p h1 h2 h3 h4] at hok
            simp [okB] at hok
        · rw [executeClaim_expired swap env info p h1 h2 (Nat.not_lt.mp h3)] at hok
          simp [okB] at hok
      · rw [executeClaim_not_beneficiary swap env info p h1 h2] at hok
        simp [okB] at hok
    · rw [executeClaim_not_open swap env info p h1] at hok
      simp [okB] at hok
  · rintro ⟨h1, h2, h3, h4⟩
    rw [executeClaim_ok swap env info p h1 h2 h3 h4]
    rfl

/-- Witness for C2 at a concrete input: claim on an already-claimed swap
fails with the state error. -/
theorem claim_characterization_witness :
    executeClaim
      (some { sender := "alice", beneficiary := "bob", hash_lock := [7], timelock := 100,
              amount := 1000, token := none, state := SwapState.Claimed }) { time := 0 }
      { sender := "bob", funds := [] } [1] =
    (some { sender := "alice", beneficiary := "bob", hash_lock := [7], timelock := 100,
            amount := 1000, token := none, state := SwapState.Claimed },
     .error (.genericErr "Swap is not open")) :=
  (claim_characterization _ { time := 0 } { sender := "bob", funds := [] } [1]).2.2.1
    (by decide)

/-! ## Refund: characterization (C3) -/

/-- Refund on a non-`Open` swap fails with the state error. -/
theorem executeRefund_not_open (swap : SwapContract) (env : Env) (info : MessageInfo)
    (h1 : swap.state ≠ SwapState.Open) :
    executeRefund (some swap) env info =
      (some swap, .error (.genericErr "Swap is not open")) := by
  simp [executeRefund, h1]

/-- Refund by a non-initiator fails with the authorization error. -/
theorem executeRefund_not_sender (swap : SwapContract) (env : Env) (info : MessageInfo)
    (h1 : swap.state = SwapState.Open) (h2 : info.sender ≠ swap.sender) :
    executeRefund (some swap) env info =
      (some swap, .error (.genericErr "Only sender can refund")) := by
  simp [executeRefund, h1, h2]

/-- Refund before the deadline fails with the timing error. -/
theorem executeRefund_too_early (swap : SwapContract) (env : Env) (info : MessageInfo)
    (h1 : swap.state = SwapState.Open) (h2 : info.sender = swap.sender)
    (h3 : env.time < swap.timelock) :
    executeRefund (some swap) env info =
      (some swap, .error (.genericErr "Timelock has not expired")) := by
  simp [executeRefund, h1, h2, h3]

/-- Refund with all three guards satisfied succeeds: the state becomes
`Refunded` and exactly the one transfer directive back to the initiator is
emitted. -/
theorem executeRefund_ok (swap : SwapContract) (env : Env) (info : MessageInfo)
    (h1 : swap.state = SwapState.Open) (h2 : info.sender = swap.sender)
    (h3 : swap.timelock ≤ env.time) :
    executeRefund (some swap) env info =
      (some { swap with state := SwapState.Refunded },
       .ok [transferMsg swap.sender swap]) := by
  simp only [executeRefund, transferMsg, h1, h2, Nat.not_lt.mpr h3]
  cases swap.token <;> simp [h1, h2, Nat.not_lt.mpr h3]

/-- C3: Refund succeeds iff `state = Open`, caller = initiator and
`now ≥ deadline`; on success the state becomes `Refunded`, the record is
persisted and exactly one transfer directive returning `amount` of the
configured asset to the initiator is emitted; each single-guard failure
leaves the store unchanged and returns its specific state / authorization /
timing error. -/
theorem refund_characterization (swap : SwapContract) (env : Env) (info : MessageInfo) :
    (okB (executeRefund (some swap) env info).2 = true ↔
      (swap.state = SwapState.Open ∧ info.sender = swap.sender
        ∧ swap.timelock ≤ env.time))
  ∧ (swap.state = SwapState.Open → info.sender = swap.sender → swap.timelock ≤ env.time →
      executeRefund (some swap) env info =
        (some { swap with state := SwapState.Refunded },
         .ok [transferMsg swap.sender swap]))
  ∧ (swap.state ≠ SwapState.Open →
      executeRefund (some swap) env info =
        (some swap, .error (.genericErr "Swap is not open")))
  ∧ (swap.state = SwapState.Open → info.sender ≠ swap.sender →
      executeRefund (some swap) env info =
        (some swap, .error (.genericErr "Only sender can refund")))
  ∧ (swap.state = SwapState.Open → info.sender = swap.sender → env.time < swap.timelock →
      executeRefund (some swap) env info =
        (some swap, .error (.genericErr "Timelock has not expired"))) := by
  refine ⟨⟨?_, ?_⟩, executeRefund_ok swap env info, executeRefund_not_open swap env info,
    executeRefund_not_sender swap env info, executeRefund_too_early swap env info⟩
  · intro hok
    by_cases h1 : swap.state = SwapState.Open
    · by_cases h2 : info.sender = swap.sender
      · by_cases h3 : swap.timelock ≤ env.time
        · exact ⟨h1, h2, h3⟩
        · rw [executeRefund_too_early swap env info h1 h2 (Nat.not_le.mp h3)] at hok
          simp [okB] at hok
      · rw [executeRefund_not_sender swap env info h1 h2] at hok
        simp [okB] at hok
    · rw [executeRefund_not_open swap env info h1] at hok
      simp [okB] at hok
  · rintro ⟨h1, h2, h3⟩
    rw [executeRefund_ok swap env info h1 h2 h3]
    rfl

/-- Witness for C3 at a concrete input: refund after the deadline by the
initiator succeeds with the one bank-send directive back to the initiator. -/
theorem refund_characterization_witness :
    executeRefund
      (some { sender := "alice", beneficiary := "bob", hash_lock := [7], timelock := 100,
              amount := 1000, token := none, state := SwapState.Open }) { time := 100 }
      { sender := "alice", funds := [] } =
    (some { sender := "alice", beneficiary := "bob", hash_lock := [7], timelock := 100,
            amount := 1000, token := none, state := SwapState.Refunded },
     .ok [.bankSend "alice" [{ denom := "uatom", amount := 1000 }]]) :=
  (refund_characterization _ { time := 100 } { sender := "alice", funds := [] }).2.1
    rfl rfl (by decide)


/-! ## Create (`instantiate`): case lemmas, characterization (C5), hash-lock
length (C8) -/

/-- Create with an ill-formed initiator identity fails. -/
theorem instantiate_bad_sender (v : String → Bool) (store : Store) (env : Env)
    (msg : InstantiateMsg) (hs : v msg.sender = false) :
    instantiate v store env msg = (store, .error (.invalidAddress msg.sender)) := by
  simp [instantiate, hs]

/-- Create with an ill-formed beneficiary identity fails. -/
theorem instantiate_bad_beneficiary (v : String → Bool) (store : Store) (env : Env)
    (msg : InstantiateMsg) (hs : v msg.sender = true) (hb : v msg.beneficiary = false) :
    instantiate v store env msg = (store, .error (.invalidAddress msg.beneficiary)) := by
  simp [instantiate, hs, hb]

/-- Create with an empty hash lock fails. -/
theorem instantiate_empty_hash (v : String → Bool) (store : Store) (env : Env)
    (msg : InstantiateMsg) (hs : v msg.sender = true) (hb : v msg.beneficiary = true)
    (hh : msg.hash_lock = []) :
    instantiate v store env msg = (store, .error (.genericErr "Hash lock cannot be empty")) := by
  simp [instantiate, hs, hb, hh]

/-- Create with a deadline not strictly in the future fails. -/
theorem instantiate_late (v : String → Bool) (store : Store) (env : Env)
    (msg : InstantiateMsg) (hs : v msg.sender = true) (hb : v msg.beneficiary = true)
    (hh : msg.hash_lock ≠ []) (ht : msg.timelock ≤ env.time) :
    instantiate v store env msg =
      (store, .error (.genericErr "Timelock must be in the future")) := by
  simp [instantiate, List.isEmpty_iff, hs, hb, hh, ht]

/-- Create with a zero amount fails. -/
theorem instantiate_zero (v : String → Bool) (store : Store) (env : Env)
    (msg : InstantiateMsg) (hs : v msg.sender = true) (hb : v msg.beneficiary = true)
    (hh : msg.hash_lock ≠ []) (ht : env.time < msg.timelock) (ha : msg.amount = 0) :
    instantiate v store env msg =
      (store, .error (.genericErr "Amount must be greater than zero")) := by
  simp [instantiate, List.isEmpty_iff, hs, hb, hh, Nat.not_le.mpr ht, ha]

/-- Create with an ill-formed token identity fails. -/
theorem instantiate_bad_token (v : String → Bool) (store : Store) (env : Env)
    (msg : InstantiateMsg) (hs : v msg.sender = true) (hb : v msg.beneficiary = true)
    (hh : msg.hash_lock ≠ []) (ht : env.time < msg.timelock) (ha : msg.amount ≠ 0)
    (a : String) (htk : msg.token = some a) (hva : v a = false) :
    instantiate v store env msg = (store, .error (.invalidAddress a)) := by
  simp [instantiate, List.isEmpty_iff, hs, hb, hh, Nat.not_le.mpr ht, ha, htk, hva]

/-- Create with all validations passing stores the record, with state `Open`
and every field copied from the input. -/
theorem instantiate_ok (v : String → Bool) (store : Store) (env : Env)
    (msg : InstantiateMsg) (hs : v msg.sender = true) (hb : v msg.beneficiary = true)
    (hh : msg.hash_lock ≠ []) (ht : env.time < msg.timelock) (ha : msg.amount ≠ 0)
    (htok : ∀ a, msg.token = some a → v a = true) :
    instantiate v store env msg =
      (some { sender := msg.sender, beneficiary := msg.beneficiary,
              hash_lock := msg.hash_lock, timelock := msg.timelock, amount := msg.amount,
              token := msg.token, state := SwapState.Open }, .ok []) := by
  rcases htk : msg.token with _ | a
  · simp [instantiate, List.isEmpty_iff, hs, hb, hh, Nat.not_le.mpr ht, ha, htk]
  · simp [instantiate, List.isEmpty_iff, hs, hb, hh, Nat.not_le.mpr ht, ha, htk,
      htok a htk]

/-- Create succeeds exactly on well-formed identities, a non-empty hash lock,
a strictly future deadline and a positive amount. -/
theorem instantiate_ok_iff (v : String → Bool) (store : Store) (env : Env)
    (msg : InstantiateMsg) :
    okB (instantiate v store env msg).2 = true ↔
      (v msg.sender = true ∧ v msg.beneficiary = true ∧ msg.hash_lock ≠ []
        ∧ env.time < msg.timelock ∧ msg.amount ≠ 0
        ∧ ∀ a, msg.token = some a → v a = true) := by
  constructor
  · intro hok
    by_cases hs : v msg.sender = true
    · by_cases hb : v msg.beneficiary = true
      · by_cases hh : msg.hash_lock = []
        · rw [instantiate_empty_hash v store env msg hs hb hh] at hok
          simp [okB] at hok
        · by_cases ht : env.time < msg.timelock
          · by_cases ha : msg.amount = 0
            · rw [instantiate_zero v store env msg hs hb hh ht ha] at hok
              simp [okB] at hok
            · rcases htk : msg.token with _ | a
              · exact ⟨hs, hb, hh, ht, ha, by simp [htk]⟩
              · by_cases hva : v a = true
                · refine ⟨hs, hb, hh, ht, ha, ?_⟩
                  intro a' ha'
                  obtain rfl := Option.some.inj ha'
                  exact hva
                · rw [instantiate_bad_token v store env msg hs hb hh ht ha a htk
                    (by simpa using hva)] at hok
                  simp [okB] at hok
          · rw [instantiate_late v store env msg hs hb hh (Nat.not_lt.mp ht)] at hok
            simp [okB] at hok
      · rw [instantiate_bad_beneficiary v store env msg hs (by simpa using hb)] at hok
        simp [okB] at hok
    · rw [instantiate_bad_sender v store env msg (by simpa using hs)] at hok
      simp [okB] at hok
  · rintro ⟨hs, hb, hh, ht, ha, htok⟩
    rw [instantiate_ok v store env msg hs hb hh ht ha htok]
    rfl

/-- A successful Create's full result: the stored record copies the input. -/
theorem instantiate_ok_eq (v : String → Bool) (store : Store) (env : Env)
    (msg : InstantiateMsg) (h : okB (instantiate v store env msg).2 = true) :
    instantiate v store env msg =
      (some { sender := msg.sender, beneficiary := msg.beneficiary,
              hash_lock := msg.hash_lock, timelock := msg.timelock, amount := msg.amount,
              token := msg.token, state := SwapState.Open }, .ok []) := by
  obtain ⟨hs, hb, hh, ht, ha, htok⟩ := (instantiate_ok_iff v store env msg).mp h
  exact instantiate_ok v store env msg hs hb hh ht ha htok

/-- A failing Create leaves the store untouched and returns one of the
validation errors. -/
theorem instantiate_error (v : String → Bool) (store : Store) (env : Env)
    (msg : InstantiateMsg) (e : StdErr) (h : (instantiate v store env msg).2 = .error e) :
    (instantiate v store env msg).1 = store
    ∧ (e = .invalidAddress msg.sender ∨ e = .invalidAddress msg.beneficiary
       ∨ e = .genericErr "Hash lock cannot be empty"
       ∨ e = .genericErr "Timelock must be in the future"
       ∨ e = .genericErr "Amount must be greater than zero"
       ∨ ∃ a, msg.token = some a ∧ e = .invalidAddress a) := by
  by_cases hs : v msg.sender = true
  · by_cases hb : v msg.beneficiary = true
    · by_cases hh : msg.hash_lock = []
      · rw [instantiate_empty_hash v store env msg hs hb hh] at h ⊢
        obtain rfl : e = StdErr.genericErr "Hash lock cannot be empty" := by
          simpa using h.symm
        exact ⟨rfl, Or.inr (Or.inr (Or.inl rfl))⟩
      · by_cases ht : env.time < msg.timelock
        · by_cases ha : msg.amount = 0
          · rw [instantiate_zero v store env msg hs hb hh ht ha] at h ⊢
            obtain rfl : e = StdErr.genericErr "Amount must be greater than zero" := by
              simpa using h.symm
            exact ⟨rfl, Or.inr (Or.inr (Or.inr (Or.inr (Or.inl rfl))))⟩
          · rcases htk : msg.token with _ | a
            · rw [instantiate_ok v store env msg hs hb hh ht ha (by simp [htk])] at h
              simp at h
            · by_cases hva : v a = true
              · have htokall : ∀ a', msg.token = some a' → v a' = true := by
                  intro a' ha'
                  rw [htk] at ha'
                  obtain rfl := Option.some.inj ha'
                  exact hva
                rw [instantiate_ok v store env msg hs hb hh ht ha htokall] at h
                simp at h
              · rw [instantiate_bad_token v store env msg hs hb hh ht ha a htk
                  (by simpa using hva)] at h ⊢
                obtain rfl : e = StdErr.invalidAddress a := by simpa using h.symm
                exact ⟨rfl, Or.inr (Or.inr (Or.inr (Or.inr (Or.inr ⟨a, rfl, rfl⟩))))⟩
        · rw [instantiate_late v store env msg hs hb hh (Nat.not_lt.mp ht)] at h ⊢
          obtain rfl : e = StdErr.genericErr "Timelock must be in the future" := by
            simpa using h.symm
          exact ⟨rfl, Or.inr (Or.inr (Or.inr (Or.inl rfl)))⟩
    · rw [instantiate_bad_beneficiary v store env msg hs (by simpa using hb)] at h ⊢
      obtain rfl : e = StdErr.invalidAddress msg.beneficiary := by simpa using h.symm
      exact ⟨rfl, Or.inr (Or.inl rfl)⟩
  · rw [instantiate_bad_sender v store env msg (by simpa using hs)] at h ⊢
    obtain rfl : e = StdErr.invalidAddress msg.sender := by simpa using h.symm
    exact ⟨rfl, Or.inl rfl⟩

/-- C5: Create succeeds iff the hash lock is non-empty, the deadline is
strictly in the future, the amount is positive and all supplied identities
are well-formed; on success the stored record is `Open` and copies every
input field; on failure a validation error is returned and the store is
unchanged. -/
theorem create_characterization (v : String → Bool) (store : Store) (env : Env)
    (msg : InstantiateMsg) :
    (okB (instantiate v store env msg).2 = true ↔
      (v msg.sender = true ∧ v msg.beneficiary = true ∧ msg.hash_lock ≠ []
        ∧ env.time < msg.timelock ∧ msg.amount ≠ 0
        ∧ ∀ a, msg.token = some a → v a = true))
  ∧ (okB (instantiate v store env msg).2 = true →
      instantiate v store env msg =
        (some { sender := msg.sender, beneficiary := msg.beneficiary,
                hash_lock := msg.hash_lock, timelock := msg.timelock,
                amount := msg.amount, token := msg.token, state := SwapState.Open }, .ok []))
  ∧ (∀ e, (instantiate v store env msg).2 = .error e →
      (instantiate v store env msg).1 = store
      ∧ (e = .invalidAddress msg.sender ∨ e = .invalidAddress msg.beneficiary
         ∨ e = .genericErr "Hash lock cannot be empty"
         ∨ e = .genericErr "Timelock must be in the future"
         ∨ e = .genericErr "Amount must be greater than zero"
         ∨ ∃ a, msg.token = some a ∧ e = .invalidAddress a)) :=
  ⟨instantiate_ok_iff v store env msg, instantiate_ok_eq v store env msg,
   fun e he => instantiate_error v store env msg e he⟩

/-- Witness for C5 at a concrete valid creation input. -/
theorem create_characterization_witness :
    instantiate (fun _ => true) none { time := 0 }
      { sender := "alice", beneficiary := "bob", hash_lock := [7, 7], timelock := 10,
        amount := 5, token := none } =
      (some { sender := "alice", beneficiary := "bob", hash_lock := [7, 7], timelock := 10,
              amount := 5, token := none, state := SwapState.Open }, .ok []) :=
  (create_characterization (fun _ => true) none { time := 0 }
      { sender := "alice", beneficiary := "bob", hash_lock := [7, 7], timelock := 10,
        amount := 5, token := none }).2.1 (by decide)

/-! ## Immutability of the stored fields under `execute` (C8) -/

/-- Every `execute` call keeps a record in the store and leaves every field
except `state` unchanged (Claim and Refund overwrite only `state`; Fund and
Receive never write). -/
theorem execute_preserves_fields (v : String → Bool) (swap : SwapContract) (env : Env)
    (info : MessageInfo) (m : ExecuteMsg) :
    ∃ swap1, (execute v (some swap) env info m).1 = some swap1
      ∧ swap1.sender = swap.sender ∧ swap1.beneficiary = swap.beneficiary
      ∧ swap1.hash_lock = swap.hash_lock ∧ swap1.timelock = swap.timelock
      ∧ swap1.amount = swap.amount ∧ swap1.token = swap.token := by
  cases m with
  | Fund =>
    exact ⟨swap, executeFund_fst (some swap) env info, rfl, rfl, rfl, rfl, rfl, rfl⟩
  | Receive w =>
    exact ⟨swap, executeReceive_fst v (some swap) env info w, rfl, rfl, rfl, rfl, rfl, rfl⟩
  | Claim p =>
    simp only [execute]
    by_cases h1 : swap.state = SwapState.Open
    · by_cases h2 : info.sender = swap.beneficiary
      · by_cases h3 : env.time < swap.timelock
        · by_cases h4 : Sha256.digest p = swap.hash_lock
          · rw [executeClaim_ok swap env info p h1 h2 h3 h4]
            exact ⟨_, rfl, rfl, rfl, rfl, rfl, rfl, rfl⟩
          · rw [executeClaim_bad_preimage swap env info p h1 h2 h3 h4]
            exact ⟨swap, rfl, rfl, rfl, rfl, rfl, rfl, rfl⟩
        · rw [executeClaim_expired swap env info p h1 h2 (Nat.not_lt.mp h3)]
          exact ⟨swap, rfl, rfl, rfl, rfl, rfl, rfl, rfl⟩
      · rw [executeClaim_not_beneficiary swap env info p h1 h2]
        exact ⟨swap, rfl, rfl, rfl, rfl, rfl, rfl, rfl⟩
    · rw [executeClaim_not_open swap env info p h1]
      exact ⟨swap, rfl, rfl, rfl, rfl, rfl, rfl, rfl⟩
  | Refund =>
    simp only [execute]
    by_cases h1 : swap.state = SwapState.Open
    · by_cases h2 : info.sender = swap.sender
      · by_cases h3 : swap.timelock ≤ env.time
        · rw [executeRefund_ok swap env info h1 h2 h3]
          exact ⟨_, rfl, rfl, rfl, rfl, rfl, rfl, rfl⟩
        · rw [executeRefund_too_early swap env info h1 h2 (Nat.not_le.mp h3)]
          exact ⟨swap, rfl, rfl, rfl, rfl, rfl, rfl, rfl⟩
      · rw [executeRefund_not_sender swap env info h1 h2]
        exact ⟨swap, rfl, rfl, rfl, rfl, rfl, rfl, rfl⟩
    · rw [executeRefund_not_open swap env info h1]
      exact ⟨swap, rfl, rfl, rfl, rfl, rfl, rfl, rfl⟩

/-- C8 (amended): Create succeeds only with a NON-EMPTY hash lock (any
positive length is accepted, not only 32 bytes), stores it verbatim, and no
later operation ever modifies the stored `hash_lock`. -/
theorem hash_lock_nonempty_immutable (v : String → Bool) (store : Store) (env : Env)
    (msg : InstantiateMsg) (swap : SwapContract) (env' : Env) (info : MessageInfo)
    (m : ExecuteMsg) :
    (okB (instantiate v store env msg).2 = true →
      msg.hash_lock ≠ [] ∧
      ∃ swap0, (instantiate v store env msg).1 = some swap0
        ∧ swap0.hash_lock = msg.hash_lock)
  ∧ ∃ swap1, (execute v (some swap) env' info m).1 = some swap1
      ∧ swap1.hash_lock = swap.hash_lock := by
  constructor
  · intro hok
    obtain ⟨-, -, hh, -, -, -⟩ := (instantiate_ok_iff v store env msg).mp hok
    rw [instantiate_ok_eq v store env msg hok]
    exact ⟨hh, _, rfl, rfl⟩
  · obtain ⟨swap1, h, -, -, hl, -, -, -⟩ := execute_preserves_fields v swap env' info m
    exact ⟨swap1, h, hl⟩

/-- Witness for C8 (amended): concrete instantiation and a concrete Claim
call both preserve the hash lock. -/
theorem hash_lock_nonempty_immutable_witness :
    ([7] : Binary) ≠ []
  ∧ ∃ swap1,
      (execute (fun _ => true)
        (some { sender := "alice", beneficiary := "bob", hash_lock := [7], timelock := 100,
                amount := 1000, token := none, state := SwapState.Open }) { time := 0 }
        { sender := "x", funds := [] } ExecuteMsg.Fund).1 = some swap1
      ∧ swap1.hash_lock = [7] :=
  ⟨by decide,
   (hash_lock_nonempty_immutable (fun _ => true) none { time := 0 }
      { sender := "alice", beneficiary := "bob", hash_lock := [7], timelock := 100,
        amount := 1000, token := none }
      { sender := "alice", beneficiary := "bob", hash_lock := [7], timelock := 100,
        amount := 1000, token := none, state := SwapState.Open }
      { time := 0 } { sender := "x", funds := [] } ExecuteMsg.Fund).2⟩

/-- C8 counterexample: Create accepts a ONE-byte hash lock (the code checks
only non-emptiness, not a 32-byte length), refuting "Create only succeeds
when the supplied hash_lock is exactly 32 bytes long". -/
theorem hash_lock_not_32_cex :
    instantiate (fun _ => true) none { time := 0 }
      { sender := "a", beneficiary := "b", hash_lock := [7], timelock := 10,
        amount := 5, token := none } =
      (some { sender := "a", beneficiary := "b", hash_lock := [7], timelock := 10,
              amount := 5, token := none, state := SwapState.Open }, .ok [])
  ∧ ([7] : Binary).length ≠ 32 :=
  ⟨rfl, by decide⟩

/-! ## Receive (token-funding notification): characterization (C9) -/

/-- Receive from the wrong notifying contract (or on a native swap, whose
`token` is `none`) fails with the token-mismatch error. -/
theorem executeReceive_wrong_token (v : String → Bool) (swap : SwapContract) (env : Env)
    (info : MessageInfo) (w : Cw20ReceiveMsg) (hook : Cw20HookMsg)
    (hmsg : w.msg = some hook) (hv : v w.sender = true)
    (ht : swap.token ≠ some info.sender) :
    executeReceive v (some swap) env info w =
      (some swap, .error (.genericErr "Wrong token contract")) := by
  obtain ⟨b, hl, tl⟩ := hook
  simp [executeReceive, hmsg, hv, ht]

/-- Receive notifying an amount different from the swap amount fails with
the token-mismatch error. -/
theorem executeReceive_wrong_amount (v : String → Bool) (swap : SwapContract) (env : Env)
    (info : MessageInfo) (w : Cw20ReceiveMsg) (hook : Cw20HookMsg)
    (hmsg : w.msg = some hook) (hv : v w.sender = true)
    (ht : swap.token = some info.sender) (ha : w.amount ≠ swap.amount) :
    executeReceive v (some swap) env info w =
      (some swap, .error (.genericErr "Incorrect token amount")) := by
  obtain ⟨b, hl, tl⟩ := hook
  simp [executeReceive, hmsg, hv, ht, ha]

/-- Receive from the configured token contract with the exact amount
succeeds (with no outbound message and no state change). -/
theorem executeReceive_ok (v : String → Bool) (swap : SwapContract) (env : Env)
    (info : MessageInfo) (w : Cw20ReceiveMsg) (hook : Cw20HookMsg)
    (hmsg : w.msg = some hook) (hv : v w.sender = true)
    (ht : swap.token = some info.sender) (ha : w.amount = swap.amount) :
    executeReceive v (some swap) env info w = (some swap, .ok []) := by
  obtain ⟨b, hl, tl⟩ := hook
  simp [executeReceive, hmsg, hv, ht, ha]

/-- C9: the token-transfer notification never alters the stored record, and
(for a decodable payload and well-formed notified sender) succeeds iff the
notifying contract is the swap's configured token contract and the notified
amount equals the swap amount, failing with the specific token-mismatch
error otherwise. -/
theorem receive_characterization (v : String → Bool) (store : Store) (env : Env)
    (info : MessageInfo) (w : Cw20ReceiveMsg) :
    (executeReceive v store env info w).1 = store
  ∧ (∀ swap hook, store = some swap → w.msg = some hook → v w.sender = true →
      ((okB (executeReceive v store env info w).2 = true ↔
          (swap.token = some info.sender ∧ w.amount = swap.amount))
        ∧ (swap.token ≠ some info.sender →
            (executeReceive v store env info w).2 =
              .error (.genericErr "Wrong token contract"))
        ∧ (swap.token = some info.sender → w.amount ≠ swap.amount →
            (executeReceive v store env info w).2 =
              .error (.genericErr "Incorrect token amount")))) := by
  refine ⟨executeReceive_fst v store env info w, ?_⟩
  rintro swap hook rfl hmsg hv
  refine ⟨⟨?_, ?_⟩, ?_, ?_⟩
  · intro hok
    by_cases ht : swap.token = some info.sender
    · by_cases ha : w.amount = swap.amount
      · exact ⟨ht, ha⟩
      · rw [executeReceive_wrong_amount v swap env info w hook hmsg hv ht ha] at hok
        simp [okB] at hok
    · rw [executeReceive_wrong_token v swap env info w hook hmsg hv ht] at hok
      simp [okB] at hok
  · rintro ⟨ht, ha⟩
    rw [executeReceive_ok v swap env info w hook hmsg hv ht ha]
    rfl
  · intro ht
    rw [executeReceive_wrong_token v swap env info w hook hmsg hv ht]
  · intro ht ha
    rw [executeReceive_wrong_amount v swap env info w hook hmsg hv ht ha]

/-- Witness for C9 at a concrete token swap: a matching notification
succeeds. -/
theorem receive_characterization_witness :
    okB (executeReceive (fun _ => true)
      (some { sender := "alice", beneficiary := "bob", hash_lock := [7], timelock := 100,
              amount := 1000, token := some "tok", state := SwapState.Open }) { time := 0 }
      { sender := "tok", funds := [] }
      { sender := "carol", amount := 1000,
        msg := some (.Fund "bob" [7] 100) }).2 = true :=
  (((receive_characterization (fun _ => true) _ { time := 0 }
      { sender := "tok", funds := [] }
      { sender := "carol", amount := 1000, msg := some (.Fund "bob" [7] 100) }).2
      _ _ rfl rfl rfl).1).mpr ⟨rfl, rfl⟩

/-! ## Error atomicity (C4) -/

/-- A failing Claim leaves the store exactly as loaded. -/
theorem executeClaim_error_fst (store : Store) (env : Env) (info : MessageInfo)
    (p : Binary) (e : StdErr) (h : (executeClaim store env info p).2 = .error e) :
    (executeClaim store env info p).1 = store := by
  rcases store with _ | swap
  · rfl
  · by_cases h1 : swap.state = SwapState.Open
    · by_cases h2 : info.sender = swap.beneficiary
      · by_cases h3 : env.time < swap.timelock
        · by_cases h4 : Sha256.digest p = swap.hash_lock
          · rw [executeClaim_ok swap env info p h1 h2 h3 h4] at h
            simp at h
          · rw [executeClaim_bad_preimage swap env info p h1 h2 h3 h4]
        · rw [executeClaim_expired swap env info p h1 h2 (Nat.not_lt.mp h3)]
      · rw [executeClaim_not_beneficiary swap env info p h1 h2]
    · rw [executeClaim_not_open swap env info p h1]

/-- A failing Refund leaves the store exactly as loaded. -/
theorem executeRefund_error_fst (store : Store) (env : Env) (info : MessageInfo)
    (e : StdErr) (h : (executeRefund store env info).2 = .error e) :
    (executeRefund store env info).1 = store := by
  rcases store with _ | swap
  · rfl
  · by_cases h1 : swap.state = SwapState.Open
    · by_cases h2 : info.sender = swap.sender
      · by_cases h3 : swap.timelock ≤ env.time
        · rw [executeRefund_ok swap env info h1 h2 h3] at h
          simp at h
        · rw [executeRefund_too_early swap env info h1 h2 (Nat.not_le.mp h3)]
      · rw [executeRefund_not_sender swap env info h1 h2]
    · rw [executeRefund_not_open swap env info h1]

/-- A failing `execute` call leaves the store exactly as loaded. -/
theorem execute_error_fst (v : String → Bool) (store : Store) (env : Env)
    (info : MessageInfo) (m : ExecuteMsg) (e : StdErr)
    (h : (execute v store env info m).2 = .error e) :
    (execute v store env info m).1 = store := by
  cases m with
  | Fund => exact executeFund_fst store env info
  | Claim p => exact executeClaim_error_fst store env info p e h
  | Refund => exact executeRefund_error_fst store env info e h
  | Receive w => exact executeReceive_fst v store env info w

/-- C4: error atomicity.  Whenever any operation (Create via `instantiate`,
or Fund / Claim / Refund / Receive via `execute`) returns an error, the
stored record is unchanged from its value before the call (and the error
result carries no outbound transfer directive); a success returns the new
store and its directives together in one result. -/
theorem error_atomicity (v : String → Bool) (store : Store) (env : Env)
    (info : MessageInfo) (m : ExecuteMsg) (imsg : InstantiateMsg) (e e' : StdErr) :
    ((execute v store env info m).2 = .error e →
      (execute v store env info m).1 = store
      ∧ msgCount (execute v store env info m).2 = 0)
  ∧ ((instantiate v store env imsg).2 = .error e' →
      (instantiate v store env imsg).1 = store
      ∧ msgCount (instantiate v store env imsg).2 = 0) :=
  ⟨fun h => ⟨execute_error_fst v store env info m e h, by rw [h]; rfl⟩,
   fun h => ⟨(instantiate_error v store env imsg e' h).1, by rw [h]; rfl⟩⟩

/-- Witness for C4 at a concrete failing call: refund by a stranger leaves
the store intact. -/
theorem error_atomicity_witness :
    (execute (fun _ => true)
      (some { sender := "alice", beneficiary := "bob", hash_lock := [7], timelock := 100,
              amount := 1000, token := none, state := SwapState.Open }) { time := 0 }
      { sender := "mallory", funds := [] } ExecuteMsg.Refund).1 =
    some { sender := "alice", beneficiary := "bob", hash_lock := [7], timelock := 100,
           amount := 1000, token := none, state := SwapState.Open } :=
  ((error_atomicity (fun _ => true)
      (some { sender := "alice", beneficiary := "bob", hash_lock := [7], timelock := 100,
              amount := 1000, token := none, state := SwapState.Open })
      { time := 0 } { sender := "mallory", funds := [] }
      ExecuteMsg.Refund
      { sender := "a", beneficiary := "b", hash_lock := [7], timelock := 10,
        amount := 5, token := none }
      (.genericErr "Only sender can refund") (.genericErr "x")).1 rfl).1

/-! ## Trace safety: one-of-two-outcomes (C1) -/

/-- A step whose result is an error on an unchanged store falls in the
"no-effect" case. -/
theorem stepCall_left (v : String → Bool) (s : Store) (c : Call) (e : StdErr)
    (hstep : stepCall v s c = (s, .error e)) :
    (stepCall v s c).1 = s ∧ msgCount (stepCall v s c).2 = 0
      ∧ (okB (stepCall v s c).2 = true → isSettle c.msg = false) := by
  rw [hstep]
  exact ⟨rfl, rfl, fun h => by simp [okB] at h⟩

/-- Case analysis of one step: either the store is unchanged with no
outbound message (and a success is not a Claim/Refund), or the step is a
successful Claim/Refund from an `Open` store that emits exactly one message
and leaves the store non-`Open`. -/
theorem stepCall_cases (v : String → Bool) (s : Store) (c : Call) :
    ((stepCall v s c).1 = s ∧ msgCount (stepCall v s c).2 = 0
      ∧ (okB (stepCall v s c).2 = true → isSettle c.msg = false))
  ∨ (storeOpen s = true ∧ storeOpen (stepCall v s c).1 = false
      ∧ msgCount (stepCall v s c).2 = 1 ∧ okB (stepCall v s c).2 = true
      ∧ isSettle c.msg = true) := by
  obtain ⟨env, info, m⟩ := c
  cases m with
  | Fund =>
    exact Or.inl ⟨executeFund_fst s env info, executeFund_msgCount s env info,
      fun _ => rfl⟩
  | Receive w =>
    exact Or.inl ⟨executeReceive_fst v s env info w, executeReceive_msgCount v s env info w,
      fun _ => rfl⟩
  | Claim p =>
    rcases s with _ | swap
    · exact Or.inl (stepCall_left v none ⟨env, info, ExecuteMsg.Claim p⟩ .notFound rfl)
    · by_cases h1 : swap.state = SwapState.Open
      · by_cases h2 : info.sender = swap.beneficiary
        · by_cases h3 : env.time < swap.timelock
          · by_cases h4 : Sha256.digest p = swap.hash_lock
            · refine Or.inr ?_
              have hstep : stepCall v (some swap) ⟨env, info, ExecuteMsg.Claim p⟩ =
                  (some { swap with state := SwapState.Claimed },
                   .ok [transferMsg swap.beneficiary swap]) :=
                executeClaim_ok swap env info p h1 h2 h3 h4
              rw [hstep]
              exact ⟨by simp [storeOpen, h1], rfl, rfl, rfl, rfl⟩
            · exact Or.inl (stepCall_left v (some swap) ⟨env, info, ExecuteMsg.Claim p⟩ _
                (executeClaim_bad_preimage swap env info p h1 h2 h3 h4))
          · exact Or.inl (stepCall_left v (some swap) ⟨env, info, ExecuteMsg.Claim p⟩ _
              (executeClaim_expired swap env info p h1 h2 (Nat.not_lt.mp h3)))
        · exact Or.inl (stepCall_left v (some swap) ⟨env, info, ExecuteMsg.Claim p⟩ _
            (executeClaim_not_beneficiary swap env info p h1 h2))
      · exact Or.inl (stepCall_left v (some swap) ⟨env, info, ExecuteMsg.Claim p⟩ _
          (executeClaim_not_open swap env info p h1))
  | Refund =>
    rcases s with _ | swap
    · exact Or.inl (stepCall_left v none ⟨env, info, ExecuteMsg.Refund⟩ .notFound rfl)
    · by_cases h1 : swap.state = SwapState.Open
      · by_cases h2 : info.sender = swap.sender
        · by_cases h3 : swap.timelock ≤ env.time
          · refine Or.inr ?_
            have hstep : stepCall v (some swap) ⟨env, info, ExecuteMsg.Refund⟩ =
                (some { swap with state := SwapState.Refunded },
                 .ok [transferMsg swap.sender swap]) :=
              executeRefund_ok swap env info h1 h2 h3
            rw [hstep]
            exact ⟨by simp [storeOpen, h1], rfl, rfl, rfl, rfl⟩
          · exact Or.inl (stepCall_left v (some swap) ⟨env, info, ExecuteMsg.Refund⟩ _
              (executeRefund_too_early swap env info h1 h2 (Nat.not_le.mp h3)))
        · exact Or.inl (stepCall_left v (some swap) ⟨env, info, ExecuteMsg.Refund⟩ _
            (executeRefund_not_sender swap env info h1 h2))
      · exact Or.inl (stepCall_left v (some swap) ⟨env, info, ExecuteMsg.Refund⟩ _
          (executeRefund_not_open swap env info h1))

/-- From a non-`Open` store a trace emits no transfer directives. -/
theorem traceTransfers_frozen (v : String → Bool) (calls : List Call) :
    ∀ s, storeOpen s = false → traceTransfers v s calls = 0 := by
  induction calls with
  | nil => intro s _; rfl
  | cons c rest ih =>
    intro s h
    rcases stepCall_cases v s c with ⟨h1, h2, _⟩ | ⟨hopen, _⟩
    · rw [traceTransfers, h2, h1, ih s h]
    · rw [hopen] at h
      cases h

/-- From a non-`Open` store a trace settles nothing: no Claim or Refund in
it ever succeeds. -/
theorem traceSettles_frozen (v : String → Bool) (calls : List Call) :
    ∀ s, storeOpen s = false → traceSettles v s calls = 0 := by
  induction calls with
  | nil => intro s _; rfl
  | cons c rest ih =>
    intro s h
    rcases stepCall_cases v s c with ⟨h1, _, h3⟩ | ⟨hopen, _⟩
    · rw [traceSettles, h1, ih s h]
      cases hok : okB (stepCall v s c).2 with
      | false => simp [hok]
      | true => simp [hok, h3 hok]
    · rw [hopen] at h
      cases h

/-- Over any trace from any store, at most one transfer directive is ever
emitted. -/
theorem traceTransfers_le_one (v : String → Bool) (calls : List Call) :
    ∀ s, traceTransfers v s calls ≤ 1 := by
  induction calls with
  | nil => intro s; simp [traceTransfers]
  | cons c rest ih =>
    intro s
    rw [traceTransfers]
    rcases stepCall_cases v s c with ⟨_, h2, _⟩ | ⟨_, hno, h2, _, _⟩
    · rw [h2]
      simpa using ih _
    · rw [h2, traceTransfers_frozen v rest _ hno]

/-- Over any trace from any store, at most one Claim-or-Refund call ever
succeeds. -/
theorem traceSettles_le_one (v : String → Bool) (calls : List Call) :
    ∀ s, traceSettles v s calls ≤ 1 := by
  induction calls with
  | nil => intro s; simp [traceSettles]
  | cons c rest ih =>
    intro s
    rw [traceSettles]
    rcases stepCall_cases v s c with ⟨_, _, h3⟩ | ⟨_, hno, _, hok, hst⟩
    · have hbit : (okB (stepCall v s c).2 && isSettle c.msg) = false := by
        cases hok : okB (stepCall v s c).2 with
        | false => simp [hok]
        | true => simp [hok, h3 hok]
      rw [hbit]
      simpa using ih _
    · rw [hok, hst, traceSettles_frozen v rest _ hno]
      simp

/-- C1: one-of-two-outcomes safety.  Over any trace of Fund / Claim /
Refund / Receive calls, at most one Claim-or-Refund ever succeeds and at
most one outbound transfer directive is ever emitted; and once the stored
record has left `Open`, every Fund, Claim or Refund call fails with the
state error and returns the stored record unchanged. -/
theorem one_of_two_outcomes (v : String → Bool) (s : Store) (calls : List Call) :
    traceSettles v s calls ≤ 1
  ∧ traceTransfers v s calls ≤ 1
  ∧ (∀ swap, s = some swap → swap.state ≠ SwapState.Open →
      ∀ env info m,
        (m = ExecuteMsg.Fund ∨ (∃ p, m = ExecuteMsg.Claim p) ∨ m = ExecuteMsg.Refund) →
        execute v s env info m = (s, .error (.genericErr "Swap is not open"))) := by
  refine ⟨traceSettles_le_one v calls s, traceTransfers_le_one v calls s, ?_⟩
  rintro swap rfl hno env info m (rfl | ⟨p, rfl⟩ | rfl)
  · exact executeFund_not_open swap env info hno
  · exact executeClaim_not_open swap env info p hno
  · exact executeRefund_not_open swap env info hno

/-- Witness for C1 at a concrete input: a Refund attempted on an
already-claimed swap fails with the state error and leaves the record
untouched. -/
theorem one_of_two_outcomes_witness :
    execute (fun _ => true)
      (some { sender := "alice", beneficiary := "bob", hash_lock := [7], timelock := 100,
              amount := 1000, token := none, state := SwapState.Claimed }) { time := 200 }
      { sender := "alice", funds := [] } ExecuteMsg.Refund =
    (some { sender := "alice", beneficiary := "bob", hash_lock := [7], timelock := 100,
            amount := 1000, token := none, state := SwapState.Claimed },
     .error (.genericErr "Swap is not open")) :=
  (one_of_two_outcomes (fun _ => true)
      (some { sender := "alice", beneficiary := "bob", hash_lock := [7], timelock := 100,
              amount := 1000, token := none, state := SwapState.Claimed }) []).2.2
    _ rfl (by decide) { time := 200 } { sender := "alice", funds := [] }
    ExecuteMsg.Refund (Or.inr (Or.inr rfl))

/-! ## Hash round-trip (the provable halves of the spec's round-trip claim)

Claiming with the committed preimage always succeeds, and a claim fails with
the cryptographic error exactly when the digest of the supplied preimage
differs from the hash lock.  The spec's stronger reading — that every
`p' ≠ p` of equal length fails — would additionally require SHA-256 to be
collision-free on equal-length inputs, which is not decidable here. -/

/-- Round trip: with `hash_lock = digest p`, a timely claim by the
beneficiary with `p` succeeds, and a claim with any `q` whose digest differs
from `digest p` fails with the "Invalid preimage" error, state untouched. -/
theorem claim_roundtrip (swap : SwapContract) (env : Env) (info : MessageInfo)
    (p q : Binary) (h1 : swap.state = SwapState.Open)
    (h2 : info.sender = swap.beneficiary) (h3 : env.time < swap.timelock)
    (hlock : swap.hash_lock = Sha256.digest p) :
    okB (executeClaim (some swap) env info p).2 = true
  ∧ (Sha256.digest q ≠ Sha256.digest p →
      executeClaim (some swap) env info q =
        (some swap, .error (.genericErr "Invalid preimage"))) := by
  constructor
  · rw [executeClaim_ok swap env info p h1 h2 h3 hlock.symm]
    rfl
  · intro hq
    exact executeClaim_bad_preimage swap env info q h1 h2 h3 (by rw [hlock]; exact hq)

end Htlc
